import Mathlib

/-!
Verification development for the metll backend's swipe/match engine and
AI-host conversation state machine (`src/controller/swipe.controller.ts`,
the report controller, and the Prisma schema migration).

Modelling conventions:
* Database ids are `Nat`; Prisma rows become Lean structures, tables become
  lists kept in insertion order (`SERIAL` ids are modelled by `next…Id`
  counters on the database state).
* Each Express controller becomes a pure function from the database state
  (plus its request parameters) to an updated state and a response value;
  the generic `catch` handler of a controller is modelled by a
  `serverError` response.
* `Math.random()` picks from fixed pools are modelled by an extra `pick`
  parameter used modulo the pool length.
* `setTimeout` continuations that merely delay the next host prompt
  (500 ms / 1.5 s / 2 s / 2.5 s) are modelled as running to completion
  within the same operation; the 60-second STAGE_4D auto-advance timer is
  modelled as a separate trace operation, since other requests genuinely
  interleave with it.
* Timestamps (`matchedAt`, `startedAt`, `completedAt`, `createdAt`) are
  modelled by presence only (`Option Unit`) or omitted where nothing reads
  them.
-/

namespace Metll

/-- A `Swipe` row: (swiperId, swipedId, direction). -/
structure Swipe where
  swiperId : Nat
  swipedId : Nat
  direction : String
deriving Repr, DecidableEq

/-- A `Match` row: canonical pair with its id. -/
structure MatchRow where
  id : Nat
  user1Id : Nat
  user2Id : Nat
deriving Repr, DecidableEq

/-- A `ChatRoom` row (the conversation room, one per match). -/
structure ChatRoom where
  id : Nat
  matchId : Nat
deriving Repr, DecidableEq

/-- The slice of the database that `recordSwipe` touches. -/
structure SwipeDB where
  swipes : List Swipe
  matchRows : List MatchRow
  chatRooms : List ChatRoom
  nextMatchId : Nat
  nextRoomId : Nat
deriving Repr, DecidableEq

/-- The JSON responses `recordSwipe` can produce, abstracted to their
discriminating content.  `matched` carries the match id and the chat room id
of the response payload. -/
inductive SwipeResponse where
  | unauthorized
  | invalidRequest
  | selfSwipe
  | alreadySwiped
  | swiped
  | matched (matchId : Nat) (chatRoomId : Option Nat)
  | serverError
deriving Repr, DecidableEq

/-- `recordSwipe`, with an interference point.  `mid` is the database update
committed by any concurrent request between this request's
`prisma.match.findUnique` existence check and its `prisma.match.create`; the
sequential behaviour is `mid = id`.  The `create` enforces the schema's
unique index `Match_user1Id_user2Id_key`: if the canonical pair is already
present the insert throws, and the only handler in the controller is the
generic catch returning a 500 response (`serverError`). -/
def recordSwipeRaced (db : SwipeDB) (mid : SwipeDB → SwipeDB)
    (userId targetUserId : Nat) (direction : String) : SwipeDB × SwipeResponse :=
  if userId = 0 then (db, .unauthorized)
  else if targetUserId = 0 ∨ (direction ≠ "like" ∧ direction ≠ "pass") then
    (db, .invalidRequest)
  else if targetUserId = userId then (db, .selfSwipe)
  else if (db.swipes.find? fun s => s.swiperId == userId && s.swipedId == targetUserId).isSome then
    (db, .alreadySwiped)
  else
    let db1 : SwipeDB := { db with swipes := db.swipes ++ [⟨userId, targetUserId, direction⟩] }
    if direction = "pass" then (db1, .swiped)
    else
      match db1.swipes.find? fun s =>
          s.swiperId == targetUserId && s.swipedId == userId && s.direction == "like" with
      | none => (db1, .swiped)
      | some _ =>
        -- `[userId, targetUserId].sort((a, b) => a - b)`
        let user1Id := min userId targetUserId
        let user2Id := max userId targetUserId
        match db1.matchRows.find? fun m => m.user1Id == user1Id && m.user2Id == user2Id with
        | some m =>
          let room := db1.chatRooms.find? fun r => r.matchId == m.id
          (db1, .matched m.id (room.map ChatRoom.id))
        | none =>
          let db2 := mid db1
          if db2.matchRows.any fun m => m.user1Id == user1Id && m.user2Id == user2Id then
            -- unique-constraint violation on insert, reaches the generic catch
            (db2, .serverError)
          else
            let mId := db2.nextMatchId
            let rId := db2.nextRoomId
            ({ db2 with
                matchRows := db2.matchRows ++ [⟨mId, user1Id, user2Id⟩],
                chatRooms := db2.chatRooms ++ [⟨rId, mId⟩],
                nextMatchId := mId + 1,
                nextRoomId := rId + 1 },
             .matched mId (some rId))

/-- `recordSwipe` as executed without any concurrent interference. -/
def recordSwipe (db : SwipeDB) (userId targetUserId : Nat) (direction : String) :
    SwipeDB × SwipeResponse :=
  recordSwipeRaced db id userId targetUserId direction

/-- The schema invariant backing `Match_user1Id_user2Id_key` together with
canonical ordering: every match has `user1Id < user2Id` and no two match rows
share the ordered pair. -/
def matchPairUnique (db : SwipeDB) : Prop :=
  (∀ m ∈ db.matchRows, m.user1Id < m.user2Id) ∧
  db.matchRows.Pairwise fun m m' => ¬(m.user1Id = m'.user1Id ∧ m.user2Id = m'.user2Id)

/-- The schema invariant backing `Swipe_swiperId_swipedId_key`: no two swipe
rows share the ordered pair. -/
def swipePairUnique (db : SwipeDB) : Prop :=
  db.swipes.Pairwise fun s s' => ¬(s.swiperId = s'.swiperId ∧ s.swipedId = s'.swipedId)

/-! ## AI-host session state machine

The `ChatHostSession` row, its `ChatHostMessage` log and the controller
functions `optInToHost`, `optOutOfHost`, `submitHostAnswer`, `exitHost`,
`startHostSession`, `processNextHostStep` and the `moveTo…` helpers.
ASCII apostrophes inside the source's string pools are rendered as the
typographic apostrophe here. -/

/-- One entry of the `stageData.answers` map (keyed by the client's
`questionId` or a fresh `q_<Date.now()>` key). -/
structure AnswerEntry where
  userId : Nat
  answer : String
deriving Repr, DecidableEq

/-- The `stageData` JSON blob: the round counter and the per-round answers
map, kept as an association list in JS object key-insertion order.  A JSON
object without one of the fields reads the same as the defaults here,
because the controller always reads them as `stageData.gameRounds || 0`
and `stageData.answers || {}`. -/
structure StageData where
  gameRounds : Nat
  answers : List (String × AnswerEntry)
deriving Repr, DecidableEq

/-- `(session.stageData as any) || {}` plus the per-field `|| 0` / `|| {}`
defaulting. -/
def getStageData : Option StageData → StageData
  | some sd => sd
  | none => { gameRounds := 0, answers := [] }

/-- JS object update `answers[key] = entry`: replaces the value in place if
the key exists, otherwise appends the key. -/
def upsertAnswer : List (String × AnswerEntry) → String → AnswerEntry → List (String × AnswerEntry)
  | [], k, v => [(k, v)]
  | (k', v') :: rest, k, v =>
    if k' = k then (k, v) :: rest else (k', v') :: upsertAnswer rest k v

/-- A `ChatHostMessage` row.  `metaStage` and `metaAnswer` are the `stage`
and `answer` fields of the JSON `metadata`; the remaining metadata fields
(options, followUp, questionId, flags, …) are never read back by any
controller and are omitted. -/
structure HostMsg where
  senderType : String
  senderId : Option Nat
  content : String
  messageType : String
  metaStage : Option String
  metaAnswer : Option String
deriving Repr, DecidableEq

/-- A `ChatHostSession` row (timestamps modelled by presence only). -/
structure HostSession where
  id : Nat
  status : String
  currentStage : String
  user1OptIn : Bool
  user2OptIn : Bool
  stageData : Option StageData
  startedAt : Option Unit
  completedAt : Option Unit
deriving Repr, DecidableEq

/-- The session row together with its append-only `ChatHostMessage` log,
in `createdAt` order. -/
structure HostState where
  session : HostSession
  messages : List HostMsg
deriving Repr, DecidableEq

def ICE_BREAKER_QUESTIONS : List String := [
  "What’s the most spontaneous thing you’ve done recently? 🌟",
  "If you could have dinner with anyone (dead or alive), who would it be? 🍽️",
  "What’s a song that instantly puts you in a good mood? 🎵",
  "What’s your go-to comfort food when you need a pick-me-up? 🍕",
  "What’s something you’re secretly really good at? 😎",
  "If you could travel anywhere right now, where would you go? ✈️",
  "What’s the best piece of advice you’ve ever received? 💡",
  "What’s a small thing that always makes your day better? ☀️",
  "What’s your ideal way to spend a lazy Sunday? 🛋️",
  "What’s something you’re curious about but haven’t tried yet? 🤔"]

structure ThisOrThatQ where
  question : String
  options : List String
  followUp : String
deriving Repr, DecidableEq

def THIS_OR_THAT_QUESTIONS : List ThisOrThatQ := [
  ⟨"Texting or calling? 📱", ["Texting", "Calling"],
   "Interesting choice! Some people love the convenience of texting, others prefer hearing someone’s voice."⟩,
  ⟨"Early mornings or late nights? 🌙", ["Early mornings", "Late nights"],
   "Nice! Early birds catch the worm, but night owls catch the stars ✨"⟩,
  ⟨"Street food or fancy restaurants? 🍜", ["Street food", "Fancy restaurants"],
   "Both have their charm! Street food for adventure, restaurants for special moments."⟩,
  ⟨"Adventure or comfort zone? 🎢", ["Adventure", "Comfort zone"],
   "Balance is key! Sometimes we need adventure, sometimes we need our cozy space."⟩,
  ⟨"Movies or books? 🎬", ["Movies", "Books"],
   "Great choice! Movies bring stories to life, books let your imagination run wild."⟩,
  ⟨"Beach vacation or mountain retreat? 🏔️", ["Beach vacation", "Mountain retreat"],
   "Perfect! Beaches for relaxation, mountains for reflection."⟩,
  ⟨"Coffee or tea? ☕", ["Coffee", "Tea"],
   "Both are amazing! Coffee for energy, tea for calm."⟩,
  ⟨"Dogs or cats? 🐕", ["Dogs", "Cats"],
   "Aww! Both are adorable. Dogs are loyal friends, cats are independent spirits."⟩]

structure EmojiGame where
  emojis : String
  answer : String
  hint : String
deriving Repr, DecidableEq

def EMOJI_STORY_GAMES : List EmojiGame := [
  ⟨"👸❄️⛄️👧", "Frozen", "Let it go! ❄️"⟩,
  ⟨"🦁👑🌅", "The Lion King", "Circle of life 🎵"⟩,
  ⟨"🕷️🦸‍♂️🏙️", "Spider-Man", "With great power..."⟩,
  ⟨"💍🧙‍♂️🌋", "Lord of the Rings", "One ring to rule them all"⟩,
  ⟨"🚢❤️💎🥶", "Titanic", "I’m the king of the world!"⟩]

structure RateQ where
  question : String
  scale : String
deriving Repr, DecidableEq

def RATE_QUESTIONS : List RateQ := [
  ⟨"Rate your love for spicy food 🌶️", "1 (mild) to 10 (ghost pepper)"⟩,
  ⟨"Rate how much of a night owl you are 🦉", "1 (early bird) to 10 (vampire)"⟩,
  ⟨"Rate your dance floor confidence 💃", "1 (wallflower) to 10 (star)"⟩,
  ⟨"Rate your cooking skills 👨‍🍳", "1 (burnt toast) to 10 (chef level)"⟩,
  ⟨"Rate your spontaneity level ⚡", "1 (planner) to 10 (do it now!)"⟩]

structure WyrQ where
  question : String
  options : List String
  followUp : String
deriving Repr, DecidableEq

def WOULD_YOU_RATHER : List WyrQ := [
  ⟨"Would you rather...", ["Have the power to read minds 🧠", "Have the power to fly ✈️"],
   "Both are amazing superpowers! Mind reading for connection, flying for freedom."⟩,
  ⟨"Would you rather...", ["Only eat pizza forever 🍕", "Only eat ice cream forever 🍦"],
   "The eternal food debate! Both are comfort food champions."⟩,
  ⟨"Would you rather...", ["Live in a treehouse 🌳", "Live in a beach house 🏖️"],
   "Nature lovers unite! Both sound like dream escapes."⟩,
  ⟨"Would you rather...", ["Know all languages 🌍", "Play all instruments 🎸"],
   "Such creative choices! Both open doors to beautiful connections."⟩]

structure QuickFireQ where
  question : String
  options : List String
deriving Repr, DecidableEq

def QUICK_FIRE_QUESTIONS : List QuickFireQ := [
  ⟨"Pineapple on pizza? 🍍🍕", ["Yes! 🙌", "Never! 🙅"]⟩,
  ⟨"Toilet paper: over or under? 🧻", ["Over ⬆️", "Under ⬇️"]⟩,
  ⟨"Socks with sandals? 🧦👡", ["Comfy! 😌", "Fashion crime! 👮"]⟩,
  ⟨"GIF pronunciation? 🖼️", ["Gif (hard G)", "Jif (soft G)"]⟩,
  ⟨"Hotdog: sandwich? 🌭", ["Yes, it is!", "Absolutely not!"]⟩]

def TWO_TRUTHS_PROMPTS : List String := [
  "Share 2 truths and 1 lie about your hobbies! Let the other person guess which is the lie 🎭",
  "Share 2 truths and 1 lie about places you’ve been! 🗺️",
  "Share 2 truths and 1 lie about your food preferences! 🍽️",
  "Share 2 truths and 1 lie about your childhood! 👶"]

/-- The 5-element reaction pool used inside `submitHostAnswer`. -/
def ANSWER_REACTIONS : List String :=
  ["Nice! 👍", "Love it! 💫", "Great answer! ✨", "Interesting! 🤔", "Cool! 😎"]

def HANDOFF_MESSAGES : List String := [
  "You both are doing amazing! 🎉 I’ve loved getting to know you through these questions. I’ll step back now so you can continue the conversation naturally. If you ever want me back, just tap the 🤖 button!",
  "This has been so fun! ✨ You both have great energy. I’ll let you take it from here - you’ve got this! Feel free to call me back anytime with the 🤖 button.",
  "You’re both awesome! 🌟 I’ve enjoyed facilitating this conversation. Time for me to step back - you two can take it from here! Tap 🤖 if you want me back."]

def EXIT_MESSAGES : List String := [
  "Thanks for the fun conversation! 🎉 I’ll step back now so you can chat naturally. You’ve got this! 💪",
  "It’s been great! ✨ I’ll let you two continue on your own. Feel free to bring me back anytime with the 🤖 button!",
  "You both are doing great! 🌟 I’ll step back now. Keep the conversation going - you’ve got plenty to talk about!"]

/-- `arr[Math.floor(Math.random() * arr.length)]` with the random draw
modelled by the `pick` parameter. -/
def pickFrom {α : Type} (l : List α) (dflt : α) (pick : Nat) : α :=
  l.getD (pick % l.length) dflt

def appendHostMsg (st : HostState) (m : HostMsg) : HostState :=
  { st with messages := st.messages ++ [m] }

/-- `prisma.chatHostSession.update` setting `currentStage` and `stageData`. -/
def setStage (st : HostState) (stage : String) (sd : Option StageData) : HostState :=
  { st with session := { st.session with currentStage := stage, stageData := sd } }

/-- `prisma.chatHostSession.update` setting only `stageData`. -/
def setStageDataOnly (st : HostState) (sd : Option StageData) : HostState :=
  { st with session := { st.session with stageData := sd } }

/-- The STAGE_1 ice-breaker prompt emitted by `startHostSession`. -/
def stage1Prompt (pick : Nat) : HostMsg :=
  let question := pickFrom ICE_BREAKER_QUESTIONS "" pick
  ⟨"host", none,
   s!"Hey! 👋 I’m here to help you both get to know each other better. Let’s start with something fun!\n\n{question}\n\nTake your time - no pressure! 😊",
   "question", some "STAGE_1", none⟩

/-- `startHostSession`: set the session to `active`/STAGE_1 (recording
`startedAt`) and emit the single STAGE_1 ice-breaker prompt. -/
def startHostSession (st : HostState) (pick : Nat) : HostState :=
  let st1 : HostState :=
    { st with session := { st.session with
        status := "active", currentStage := "STAGE_1", startedAt := some () } }
  appendHostMsg st1 (stage1Prompt pick)

/-- `moveToStage3`: emoji-story game. -/
def moveToStage3 (st : HostState) (pick : Nat) : HostState :=
  let st1 := setStage st "STAGE_3" (some { gameRounds := 0, answers := [] })
  let emojiGame := pickFrom EMOJI_STORY_GAMES ⟨"", "", ""⟩ pick
  let em := emojiGame.emojis
  appendHostMsg st1 ⟨"host", none,
    s!"🎬 Time for a fun challenge!\n\nCan you guess this movie from the emojis?\n\n{em}\n\nType your guess below! First one to get it wins bragging rights 🏆",
    "game_prompt", some "STAGE_3", some emojiGame.answer⟩

/-- `moveToQuickFire`: quick-fire round, first question is
`QUICK_FIRE_QUESTIONS[0]`. -/
def moveToQuickFire (st : HostState) : HostState :=
  let st1 := setStage st "STAGE_4" (some { gameRounds := 0, answers := [] })
  let quickQuestion := QUICK_FIRE_QUESTIONS.getD 0 ⟨"", []⟩
  let q := quickQuestion.question
  appendHostMsg st1 ⟨"host", none,
    s!"⚡ QUICK FIRE ROUND! ⚡\n\nNo thinking, just gut reactions!\n\n{q}",
    "game_prompt", some "STAGE_4", none⟩

/-- `moveToWouldYouRather`. -/
def moveToWouldYouRather (st : HostState) (pick : Nat) : HostState :=
  let st1 := setStage st "STAGE_4B" (some { gameRounds := 0, answers := [] })
  let wyrQuestion := pickFrom WOULD_YOU_RATHER ⟨"", [], ""⟩ pick
  let q := wyrQuestion.question
  appendHostMsg st1 ⟨"host", none,
    s!"🤔 {q}\n\nThis one’s juicy - take your pick!",
    "game_prompt", some "STAGE_4B", none⟩

/-- `moveToRateScale`. -/
def moveToRateScale (st : HostState) (pick : Nat) : HostState :=
  let st1 := setStage st "STAGE_4C" (some { gameRounds := 0, answers := [] })
  let rateQuestion := pickFrom RATE_QUESTIONS ⟨"", ""⟩ pick
  let q := rateQuestion.question
  let sc := rateQuestion.scale
  appendHostMsg st1 ⟨"host", none,
    s!"📊 Rate yourself!\n\n{q}\n\n({sc})\n\nJust type a number 1-10!",
    "game_prompt", some "STAGE_4C", none⟩

/-- `moveToTwoTruths`: sets `stageData = \x7b answers: \x7b\x7d \x7d` (the absent
`gameRounds` field reads as 0, modelled as 0) and arms the 60-second
handoff timer, which is modelled as the separate `HostOp.stage4dTimer`
trace operation. -/
def moveToTwoTruths (st : HostState) (pick : Nat) : HostState :=
  let st1 := setStage st "STAGE_4D" (some { gameRounds := 0, answers := [] })
  let prompt := pickFrom TWO_TRUTHS_PROMPTS "" pick
  appendHostMsg st1 ⟨"host", none,
    s!"🎭 Classic Party Game Time!\n\n{prompt}\n\nThis is always fun - let’s see who’s the better detective! 🕵️",
    "question", some "STAGE_4D", none⟩

/-- `moveToHandoff`: STAGE_5, session completed. -/
def moveToHandoff (st : HostState) (pick : Nat) : HostState :=
  let st1 : HostState :=
    { st with session := { st.session with
        currentStage := "STAGE_5", status := "completed", completedAt := some () } }
  let handoffMessage := pickFrom HANDOFF_MESSAGES "" pick
  appendHostMsg st1 ⟨"host", none, handoffMessage, "text", some "STAGE_5", none⟩

/-- `parseInt(x) || 5` on the rate-scale answers: decimal-digit prefix,
with both `NaN` and `0` (falsy) falling back to 5.  The sign/whitespace
handling of JS `parseInt` is not modelled (the prompt asks for a plain
1-10 number). -/
def jsParseIntOr5 (s : String) : Nat :=
  match (s.takeWhile Char.isDigit).toNat? with
  | some n => if n = 0 then 5 else n
  | none => 5

/-- The `STAGE_1` block of `processNextHostStep`: the ice-breaker waits
for both users to answer (the only stage with a per-user count). -/
def processStage1 (st : HostState) (user1Id user2Id : Nat) : HostState :=
  let answers := (getStageData st.session.stageData).answers
  let user1Answers := answers.filter fun kv => kv.2.userId == user1Id
  let user2Answers := answers.filter fun kv => kv.2.userId == user2Id
  if user1Answers.length = 1 ∧ user2Answers.length = 1 then
    let st1 : HostState := { st with session := { st.session with currentStage := "STAGE_2" } }
    let gameQuestion := THIS_OR_THAT_QUESTIONS.getD 0 ⟨"", [], ""⟩
    let q := gameQuestion.question
    let st2 := appendHostMsg st1 ⟨"host", none,
      s!"Great answers! 🎉 Now let’s play a quick game - \"This or That\"!\n\n{q}\n\nJust pick one - go with your gut! ⚡",
      "game_prompt", some "STAGE_2", none⟩
    setStageDataOnly st2 (some { gameRounds := 0, answers := [] })
  else st

/-- The `STAGE_2` block: three this-or-that rounds, gated on the count of
distinct answer keys. -/
def processStage2 (st : HostState) (pick : Nat) : HostState :=
  let sd := getStageData st.session.stageData
  let gameRounds := sd.gameRounds
  let currentRoundAnswers := sd.answers.length
  if 2 ≤ currentRoundAnswers then
    let st1 :=
      match THIS_OR_THAT_QUESTIONS.get? gameRounds with
      | some currentQuestion =>
        if currentQuestion.followUp = "" then st
        else appendHostMsg st ⟨"host", none, currentQuestion.followUp, "text", some "STAGE_2", none⟩
      | none => st
    if gameRounds < 2 then
      let nextRoundIndex := gameRounds + 1
      match THIS_OR_THAT_QUESTIONS.get? nextRoundIndex with
      | some nextQuestion =>
        let st2 := setStageDataOnly st1 (some { gameRounds := nextRoundIndex, answers := [] })
        let q := nextQuestion.question
        appendHostMsg st2 ⟨"host", none, s!"Next one! 🎯\n\n{q}", "game_prompt", some "STAGE_2", none⟩
      | none => moveToStage3 st1 pick
    else moveToStage3 st1 pick
  else st

/-- The `STAGE_3` block: emoji-story reveal once both users guessed. -/
def processStage3 (st : HostState) : HostState :=
  let answers := (getStageData st.session.stageData).answers
  if 2 ≤ answers.length then
    let lastHostMessage := (st.messages.filter fun m =>
      m.senderType == "host" && m.messageType == "game_prompt").getLast?
    let correctAnswer := (lastHostMessage.bind HostMsg.metaAnswer).getD "Unknown"
    let st1 := appendHostMsg st ⟨"host", none,
      s!"🎬 The answer was: {correctAnswer}! Great guesses! 🏆", "text", some "STAGE_3", none⟩
    moveToQuickFire st1
  else st

/-- The `STAGE_4` block: three quick-fire rounds. -/
def processStage4 (st : HostState) (pick : Nat) : HostState :=
  let sd := getStageData st.session.stageData
  let gameRounds := sd.gameRounds
  if 2 ≤ sd.answers.length then
    if gameRounds < 2 then
      let nextRound := gameRounds + 1
      let nextQuestion := QUICK_FIRE_QUESTIONS.getD nextRound ⟨"", []⟩
      let st1 := setStageDataOnly st (some { gameRounds := nextRound, answers := [] })
      let q := nextQuestion.question
      appendHostMsg st1 ⟨"host", none, s!"⚡ {q}", "game_prompt", some "STAGE_4", none⟩
    else moveToWouldYouRather st pick
  else st

/-- The `STAGE_4B` block: would-you-rather, comparing the two answers. -/
def processStage4B (st : HostState) (pick : Nat) : HostState :=
  let answers := (getStageData st.session.stageData).answers
  if 2 ≤ answers.length then
    let answerValues := answers.map fun kv => kv.2.answer
    let sameAnswer := answerValues.get? 0 == answerValues.get? 1
    let reactionMessage :=
      if sameAnswer then
        "🎉 You both picked the same! That’s some serious compatibility vibes! ✨"
      else
        "😄 Different picks! That’s what makes things interesting - variety is the spice of life!"
    let st1 := appendHostMsg st ⟨"host", none, reactionMessage, "text", some "STAGE_4B", none⟩
    moveToRateScale st1 pick
  else st

/-- The `STAGE_4C` block: rate-scale comparison.
`Math.abs(rating1 - rating2)` and `Math.round((rating1 + rating2) / 2)`
are computed on naturals (`parseInt` is modelled non-negative). -/
def processStage4C (st : HostState) (pick : Nat) : HostState :=
  let answers := (getStageData st.session.stageData).answers
  if 2 ≤ answers.length then
    let answerValues := answers.map fun kv => kv.2.answer
    let rating1 := jsParseIntOr5 (answerValues.getD 0 "")
    let rating2 := jsParseIntOr5 (answerValues.getD 1 "")
    let diff := max rating1 rating2 - min rating1 rating2
    let avg := (rating1 + rating2 + 1) / 2
    let reactionMessage :=
      if diff ≤ 1 then s!"🎯 Wow, you’re on the same wavelength! Both around {avg}/10!"
      else if diff ≤ 3 then s!"📊 Pretty close! {rating1}/10 vs {rating2}/10 - not too different!"
      else s!"😂 Opposites attract? {rating1}/10 vs {rating2}/10 - that’s quite the difference!"
    let st1 := appendHostMsg st ⟨"host", none, reactionMessage, "text", some "STAGE_4C", none⟩
    moveToTwoTruths st1 pick
  else st

/-- `processNextHostStep`: stage progression evaluated after an answer is
recorded, dispatching on `currentStage` exactly as the controller's
if/else-if chain does.  Prompts that the controller emits on short
(≤ 2.5 s) timers are modelled as appended within the same step; STAGE_4D
advances by its own 60 s timer and every other stage takes no action. -/
def processNextHostStep (st : HostState) (user1Id user2Id : Nat) (pick : Nat) : HostState :=
  let stage := st.session.currentStage
  if stage = "STAGE_1" then processStage1 st user1Id user2Id
  else if stage = "STAGE_2" then processStage2 st pick
  else if stage = "STAGE_3" then processStage3 st
  else if stage = "STAGE_4" then processStage4 st pick
  else if stage = "STAGE_4B" then processStage4B st pick
  else if stage = "STAGE_4C" then processStage4C st pick
  else st

/-- `submitHostAnswer`, for a caller who is a participant of the match.
`freshKey` models the fresh `q_<Date.now()>` fallback answer key,
`pickReaction`/`pickStep` the two random draws.  The controller returns
before any write when the session is not `active`; otherwise it appends the
user's answer to the transcript, upserts it into `stageData.answers`, runs
`processNextHostStep`, and its 500 ms reaction timer (a canned host
reaction tagged with the pre-step stage) is modelled as completing after
the step. -/
def submitHostAnswer (st : HostState) (isUser1 : Bool) (user1Id user2Id : Nat)
    (answer : String) (questionId : Option String) (freshKey : String)
    (pickReaction pickStep : Nat) : Except String HostState :=
  if answer = "" then .error "Answer is required."
  else if st.session.status ≠ "active" then .error "Host session not active."
  else
    let userId := if isUser1 then user1Id else user2Id
    let senderType := if isUser1 then "user1" else "user2"
    let st1 := appendHostMsg st ⟨senderType, some userId, answer, "text", none, none⟩
    let sd := getStageData st1.session.stageData
    let answerKey :=
      match questionId with
      | some q => if q = "" then freshKey else q
      | none => freshKey
    let answers1 := upsertAnswer sd.answers answerKey ⟨userId, answer⟩
    let st2 := setStageDataOnly st1 (some { sd with answers := answers1 })
    let st3 := processNextHostStep st2 user1Id user2Id pickStep
    let reaction := pickFrom ANSWER_REACTIONS "" pickReaction
    let st4 := appendHostMsg st3 ⟨"host", none, reaction, "text", some st.session.currentStage, none⟩
    .ok st4

/-- Result of `optInToHost`: the updated state and whether
`startHostSession` ran. -/
structure OptInResult where
  state : HostState
  fired : Bool
deriving Repr, DecidableEq

/-- `optInToHost` on an existing session of a match the caller belongs to:
reset an `exited` session for re-entry (setting only the caller's opt-in
flag afterwards), otherwise set the caller's flag; then start the session
exactly when both flags are set and the status is still `pending`. -/
def optInToHost (st : HostState) (isUser1 : Bool) (pick : Nat) : OptInResult :=
  let session := st.session
  let updated : HostSession :=
    if session.status = "exited" then
      let base : HostSession :=
        { session with
          status := "pending", currentStage := "STAGE_0",
          user1OptIn := false, user2OptIn := false, stageData := none,
          startedAt := none, completedAt := none }
      if isUser1 then { base with user1OptIn := true } else { base with user2OptIn := true }
    else
      if isUser1 then { session with user1OptIn := true } else { session with user2OptIn := true }
  let st1 : HostState := { st with session := updated }
  if updated.user1OptIn ∧ updated.user2OptIn ∧ updated.status = "pending" then
    { state := startHostSession st1 pick, fired := true }
  else
    { state := st1, fired := false }

/-- `optOutOfHost`: when the match's chat room has a host session, clear
the caller's opt-in flag and set the status to `declined` (whatever the
current status); when there is none, succeed without creating one. -/
def optOutOfHost (sess : Option HostSession) (isUser1 : Bool) : Option HostSession :=
  match sess with
  | none => none
  | some s =>
    let s1 := if isUser1 then { s with user1OptIn := false } else { s with user2OptIn := false }
    some { s1 with status := "declined" }

/-- `exitHost`: valid only from `active`; sets `exited`/STAGE_6 and emits a
farewell message. -/
def exitHost (st : HostState) (pick : Nat) : Except String HostState :=
  if st.session.status ≠ "active" then .error "Host session not active."
  else
    let st1 : HostState :=
      { st with session := { st.session with
          status := "exited", currentStage := "STAGE_6", completedAt := some () } }
    let msg := pickFrom EXIT_MESSAGES "" pick
    .ok (appendHostMsg st1 ⟨"host", none, msg, "text", some "STAGE_6", none⟩)

/-- The requests (and the one timer) that can touch a host session. -/
inductive HostOp where
  | optIn (isUser1 : Bool) (pick : Nat)
  | optOut (isUser1 : Bool)
  | submit (isUser1 : Bool) (answer : String) (questionId : Option String)
      (freshKey : String) (pickReaction pickStep : Nat)
  | exitSession (pick : Nat)
  | stage4dTimer (pick : Nat)
deriving Repr, DecidableEq

/-- One request against the session as the database sees it; a request the
controller rejects leaves the state unchanged.  `stage4dTimer` is the 60 s
STAGE_4D auto-advance firing. -/
def hostStep (user1Id user2Id : Nat) (st : HostState) : HostOp → HostState
  | .optIn b pick => (optInToHost st b pick).state
  | .optOut b =>
    match optOutOfHost (some st.session) b with
    | some s => { st with session := s }
    | none => st
  | .submit b a q k pr ps =>
    match submitHostAnswer st b user1Id user2Id a q k pr ps with
    | .ok st' => st'
    | .error _ => st
  | .exitSession pick =>
    match exitHost st pick with
    | .ok st' => st'
    | .error _ => st
  | .stage4dTimer pick => moveToHandoff st pick

/-- A freshly created session row (`status: pending`, `currentStage:
STAGE_0`, both opt-in flags defaulted to false). -/
def initialHostState (sid : Nat) : HostState :=
  { session :=
      { id := sid, status := "pending", currentStage := "STAGE_0",
        user1OptIn := false, user2OptIn := false, stageData := none,
        startedAt := none, completedAt := none },
    messages := [] }

/-- The host-session states reachable from creation by any sequence of
requests and timer firings. -/
inductive HostReachable (user1Id user2Id : Nat) : HostState → Prop where
  | init (sid : Nat) : HostReachable user1Id user2Id (initialHostState sid)
  | step (st : HostState) (op : HostOp) (h : HostReachable user1Id user2Id st) :
      HostReachable user1Id user2Id (hostStep user1Id user2Id st op)

/-- The two safety properties of a host session that every operation
preserves: an `active` session has both opt-in flags set, and a `pending`
session never has both flags set (because the start fires within the
opt-in that sets the second flag). -/
def hostInv (st : HostState) : Prop :=
  (st.session.status = "active" →
    st.session.user1OptIn = true ∧ st.session.user2OptIn = true) ∧
  ¬(st.session.status = "pending" ∧
    st.session.user1OptIn = true ∧ st.session.user2OptIn = true)

/-! ## Report / block enforcer -/

/-- A `Report` row. -/
structure Report where
  reporterId : Nat
  reportedId : Nat
  category : String
  reason : String
  status : String
deriving Repr, DecidableEq

/-- The database slice `submitReport` and `getSwipeProfiles` touch.
`users` is the list of user ids. -/
structure ReportDB where
  users : List Nat
  swipes : List Swipe
  matchRows : List MatchRow
  reports : List Report
deriving Repr, DecidableEq

inductive ReportResponse where
  | unauthorized
  | invalidRequest
  | reasonRequired
  | matchNotFound
  | noTarget
  | reported
deriving Repr, DecidableEq

/-- JS truthiness of an optional numeric request field (absent and 0 are
both falsy). -/
def jsTruthyNat : Option Nat → Bool
  | some n => n != 0
  | none => false

/-- JS `String.prototype.trim()`: drop whitespace from both ends (written
over the character list so that it evaluates inside the kernel). -/
def jsTrim (s : String) : String :=
  ⟨((s.data.dropWhile Char.isWhitespace).reverse.dropWhile Char.isWhitespace).reverse⟩

/-- Resolving the reported user from `matchId` when one is supplied: the
reported user is the other participant of the match; when the match is
missing and no usable `reportedUserId` was supplied, 404. -/
def resolveTargetId (db : ReportDB) (userId : Nat)
    (reportedUserId matchIdArg : Option Nat) : Except ReportResponse (Option Nat) :=
  let targetId := reportedUserId
  if jsTruthyNat matchIdArg then
    match db.matchRows.find? fun m => matchIdArg == some m.id with
    | some m =>
      if m.user1Id = userId then .ok (some m.user2Id)
      else if m.user2Id = userId then .ok (some m.user1Id)
      else .ok targetId
    | none =>
      if jsTruthyNat targetId then .ok targetId else .error .matchNotFound
  else .ok targetId

/-- `submitReport` (the revision of `part_006` starting at line 118):
validate, resolve the target, insert the report row unless an identical
one already exists, then delete every match between the pair — the
Cloudinary media deletion is an external side effect and the storage-level
cascade to rooms/messages/host sessions is schema behaviour — and delete
every swipe between the pair in both directions. -/
def submitReport (db : ReportDB) (userId : Nat) (reportedUserId matchIdArg : Option Nat)
    (category reason : String) : ReportDB × ReportResponse :=
  if userId = 0 then (db, .unauthorized)
  else if (¬jsTruthyNat reportedUserId ∧ ¬jsTruthyNat matchIdArg)
      ∨ category = "" ∨ reason = "" then
    (db, .invalidRequest)
  else if jsTrim reason = "" then (db, .reasonRequired)
  else
    match resolveTargetId db userId reportedUserId matchIdArg with
    | .error e => (db, e)
    | .ok targetId =>
      if ¬jsTruthyNat targetId then (db, .noTarget)
      else
        let target := targetId.getD 0
        let db1 :=
          if (db.reports.find? fun r => r.reporterId == userId && r.reportedId == target).isSome
          then db
          else { db with reports := db.reports ++ [⟨userId, target, category, reason, "pending"⟩] }
        let db2 := { db1 with matchRows := db1.matchRows.filter fun m =>
          !((m.user1Id == userId && m.user2Id == target)
            || (m.user1Id == target && m.user2Id == userId)) }
        let db3 := { db2 with swipes := db2.swipes.filter fun s =>
          !((s.swiperId == userId && s.swipedId == target)
            || (s.swiperId == target && s.swipedId == userId)) }
        (db3, .reported)

/-- `getSwipeProfiles`: the candidate ids for `userId` — every user except
self, already-swiped targets and report-blocked users, capped at 20.  The
selected profile attributes and the debug logging do not affect which ids
are returned and are omitted. -/
def getSwipeProfiles (db : ReportDB) (userId : Nat) : List Nat :=
  let swipedIds := (db.swipes.filter fun s => s.swiperId == userId).map Swipe.swipedId
  let blockedUserIds := (db.reports.filter fun r =>
      r.reporterId == userId || r.reportedId == userId).map
    fun r => if r.reporterId = userId then r.reportedId else r.reporterId
  let excludeIds := (userId :: (swipedIds ++ blockedUserIds)).dedup
  let excludeList := if excludeIds.length > 0 then excludeIds else [userId]
  (db.users.filter fun u => !excludeList.contains u).take 20

/-! ## Concrete instances used by witnesses and counterexamples -/

/-- A database in which user 2 swiped like on user 1 and nothing else
happened yet. -/
def oneLikeDB : SwipeDB :=
  { swipes := [⟨2, 1, "like"⟩], matchRows := [], chatRooms := [],
    nextMatchId := 7, nextRoomId := 3 }

/-- The same one-pending-like database, used to witness C2: user 1's like
completes the mutual pair. -/
def mutualReadyDB : SwipeDB :=
  { swipes := [⟨2, 1, "like"⟩], matchRows := [], chatRooms := [],
    nextMatchId := 7, nextRoomId := 3 }

/-- A concrete database in which users 1 and 2 are mutually liked and
matched (match 7, chat room 3). -/
def matchedDB : SwipeDB :=
  { swipes := [⟨1, 2, "like"⟩, ⟨2, 1, "like"⟩], matchRows := [⟨7, 1, 2⟩],
    chatRooms := [⟨3, 7⟩], nextMatchId := 8, nextRoomId := 4 }

/-- The C5 race database: user 2 already liked user 1; no match yet. -/
def raceDB : SwipeDB :=
  { swipes := [⟨2, 1, "like"⟩], matchRows := [], chatRooms := [],
    nextMatchId := 7, nextRoomId := 3 }

/-- The concurrent request that wins the C5 race: it commits Match 5 =
(1, 2) with chat room 9 between this request's existence check and its
insert. -/
def raceInsert (db : SwipeDB) : SwipeDB :=
  { db with
    matchRows := db.matchRows ++ [⟨5, 1, 2⟩],
    chatRooms := db.chatRooms ++ [⟨9, 5⟩],
    nextMatchId := 6, nextRoomId := 10 }

/-- C1 failing-input session: active in STAGE_2 with the final this-or-that
round open (`gameRounds = 2`) and no answers recorded yet. -/
def stage2FinalRoundState : HostState :=
  { session :=
      { id := 11, status := "active", currentStage := "STAGE_2", user1OptIn := true,
        user2OptIn := true, stageData := some ⟨2, []⟩,
        startedAt := some (), completedAt := none },
    messages := [] }

/-- User 1 submits an answer under questionId `qA`; user 2 submits
nothing. -/
def stage2AfterOne : HostState :=
  hostStep 1 2 stage2FinalRoundState (.submit true "Movies" (some "qA") "k1" 0 0)

/-- User 1 then submits a second answer under a different questionId
`qB`; user 2 still submits nothing. -/
def stage2AfterTwo : HostState :=
  hostStep 1 2 stage2AfterOne (.submit true "Books" (some "qB") "k2" 0 0)

/-- The C4 witness: a fresh session (id 21) for a match of users 1 and 2. -/
def c4State0 : HostState := initialHostState 21

/-- The C4 witness after user 1 opted in: still pending, user 1's flag
set. -/
def c4State1 : HostState := hostStep 1 2 c4State0 (.optIn true 0)

/-- A concrete database for the C3 witness: three users, users 1 and 2
mutually liked and matched, no reports yet. -/
def reportWitnessDB : ReportDB :=
  { users := [1, 2, 3], swipes := [⟨1, 2, "like"⟩, ⟨2, 1, "like"⟩],
    matchRows := [⟨10, 1, 2⟩], reports := [] }

/-- A concrete exited session used to witness C8. -/
def exitedState : HostState :=
  { session :=
      { id := 4, status := "exited", currentStage := "STAGE_6", user1OptIn := true,
        user2OptIn := true, stageData := some ⟨1, [("a", ⟨1, "x"⟩)]⟩,
        startedAt := some (), completedAt := some () },
    messages := [] }

/-! ## General lemmas -/

theorem find?_append_singleton_of_neg {α : Type} (l : List α) (a : α) (p : α → Bool)
    (h : p a = false) : (l ++ [a]).find? p = l.find? p := by
  induction l with
  | nil => simp [List.find?, h]
  | cons x xs ih =>
    by_cases hx : p x
    · simp [List.find?, hx]
    · simp only [Bool.not_eq_true] at hx
      simp [List.find?, hx, ih]

theorem any_eq_false_of_find?_eq_none {α : Type} {l : List α} {p : α → Bool}
    (h : l.find? p = none) : l.any p = false := by
  induction l with
  | nil => rfl
  | cons x xs ih =>
    by_cases hx : p x
    · simp [List.find?, hx] at h
    · simp only [Bool.not_eq_true] at hx
      simp only [List.find?, hx] at h
      simp [List.any, hx, ih h]

theorem pairwise_append_singleton {α : Type} {R : α → α → Prop} {l : List α} {a : α}
    (hl : l.Pairwise R) (ha : ∀ x ∈ l, R x a) : (l ++ [a]).Pairwise R := by
  rw [List.pairwise_append]
  refine ⟨hl, List.pairwise_singleton _ _, ?_⟩
  intro x hx b hb
  simp only [List.mem_singleton] at hb
  subst hb
  exact ha x hx

/-- `processStage1` touches only `currentStage`, `stageData` and the
message log. -/
theorem processStage1_fields (st : HostState) (u1 u2 : Nat) :
    (processStage1 st u1 u2).session.status = st.session.status ∧
    (processStage1 st u1 u2).session.user1OptIn = st.session.user1OptIn ∧
    (processStage1 st u1 u2).session.user2OptIn = st.session.user2OptIn ∧
    (processStage1 st u1 u2).session.id = st.session.id := by
  unfold processStage1
  dsimp only
  refine ⟨?_, ?_, ?_, ?_⟩ <;> (repeat' split) <;> rfl

theorem processStage2_fields (st : HostState) (p : Nat) :
    (processStage2 st p).session.status = st.session.status ∧
    (processStage2 st p).session.user1OptIn = st.session.user1OptIn ∧
    (processStage2 st p).session.user2OptIn = st.session.user2OptIn ∧
    (processStage2 st p).session.id = st.session.id := by
  unfold processStage2
  dsimp only
  refine ⟨?_, ?_, ?_, ?_⟩ <;> (repeat' split) <;> rfl

theorem processStage3_fields (st : HostState) :
    (processStage3 st).session.status = st.session.status ∧
    (processStage3 st).session.user1OptIn = st.session.user1OptIn ∧
    (processStage3 st).session.user2OptIn = st.session.user2OptIn ∧
    (processStage3 st).session.id = st.session.id := by
  unfold processStage3
  dsimp only
  refine ⟨?_, ?_, ?_, ?_⟩ <;> (repeat' split) <;> rfl

theorem processStage4_fields (st : HostState) (p : Nat) :
    (processStage4 st p).session.status = st.session.status ∧
    (processStage4 st p).session.user1OptIn = st.session.user1OptIn ∧
    (processStage4 st p).session.user2OptIn = st.session.user2OptIn ∧
    (processStage4 st p).session.id = st.session.id := by
  unfold processStage4
  dsimp only
  refine ⟨?_, ?_, ?_, ?_⟩ <;> (repeat' split) <;> rfl

theorem processStage4B_fields (st : HostState) (p : Nat) :
    (processStage4B st p).session.status = st.session.status ∧
    (processStage4B st p).session.user1OptIn = st.session.user1OptIn ∧
    (processStage4B st p).session.user2OptIn = st.session.user2OptIn ∧
    (processStage4B st p).session.id = st.session.id := by
  unfold processStage4B
  dsimp only
  refine ⟨?_, ?_, ?_, ?_⟩ <;> (repeat' split) <;> rfl

theorem processStage4C_fields (st : HostState) (p : Nat) :
    (processStage4C st p).session.status = st.session.status ∧
    (processStage4C st p).session.user1OptIn = st.session.user1OptIn ∧
    (processStage4C st p).session.user2OptIn = st.session.user2OptIn ∧
    (processStage4C st p).session.id = st.session.id := by
  unfold processStage4C
  dsimp only
  refine ⟨?_, ?_, ?_, ?_⟩ <;> (repeat' split) <;> rfl

/-- `processNextHostStep` never changes the session's status, opt-in flags
or id. -/
theorem processNextHostStep_fields (st : HostState) (u1 u2 p : Nat) :
    (processNextHostStep st u1 u2 p).session.status = st.session.status ∧
    (processNextHostStep st u1 u2 p).session.user1OptIn = st.session.user1OptIn ∧
    (processNextHostStep st u1 u2 p).session.user2OptIn = st.session.user2OptIn ∧
    (processNextHostStep st u1 u2 p).session.id = st.session.id := by
  unfold processNextHostStep
  dsimp only
  split
  · exact processStage1_fields st u1 u2
  split
  · exact processStage2_fields st p
  split
  · exact processStage3_fields st
  split
  · exact processStage4_fields st p
  split
  · exact processStage4B_fields st p
  split
  · exact processStage4C_fields st p
  exact ⟨rfl, rfl, rfl, rfl⟩

/-- Either `recordSwipe` leaves the swipe table unchanged (a rejected
request), or no swipe for the ordered pair existed and exactly the new row
was appended. -/
theorem recordSwipe_swipes_shape (db : SwipeDB) (u t : Nat) (d : String) :
    (recordSwipe db u t d).1.swipes = db.swipes ∨
    ((db.swipes.find? fun s => s.swiperId == u && s.swipedId == t) = none ∧
     (recordSwipe db u t d).1.swipes = db.swipes ++ [⟨u, t, d⟩]) := by
  unfold recordSwipe recordSwipeRaced
  by_cases h0 : u = 0
  · simp [h0]
  rw [if_neg h0]
  by_cases h1 : t = 0 ∨ (d ≠ "like" ∧ d ≠ "pass")
  · simp [h1]
  rw [if_neg h1]
  by_cases h2 : t = u
  · simp [h2]
  rw [if_neg h2]
  rcases hdup : db.swipes.find? (fun s => s.swiperId == u && s.swipedId == t) with _ | s
  · refine Or.inr ⟨hdup, ?_⟩
    rw [hdup]
    simp only [Option.isSome_none, Bool.false_eq_true, if_false]
    split
    · rfl
    · split
      · rfl
      · split
        · rfl
        · split
          · rfl
          · rfl
  · rw [hdup]
    simp

/-- Either `recordSwipe` leaves the match table unchanged, or the users
differ, no match for the canonical pair existed, and exactly the new
canonically-ordered match was appended. -/
theorem recordSwipe_matchRows_shape (db : SwipeDB) (u t : Nat) (d : String) :
    (recordSwipe db u t d).1.matchRows = db.matchRows ∨
    (¬t = u ∧
     (db.matchRows.find? fun m => m.user1Id == min u t && m.user2Id == max u t) = none ∧
     (recordSwipe db u t d).1.matchRows = db.matchRows ++ [⟨db.nextMatchId, min u t, max u t⟩]) := by
  unfold recordSwipe recordSwipeRaced
  by_cases h0 : u = 0
  · simp [h0]
  rw [if_neg h0]
  by_cases h1 : t = 0 ∨ (d ≠ "like" ∧ d ≠ "pass")
  · simp [h1]
  rw [if_neg h1]
  by_cases h2 : t = u
  · simp [h2]
  rw [if_neg h2]
  rcases hdup : db.swipes.find? (fun s => s.swiperId == u && s.swipedId == t) with _ | s
  · rw [hdup]
    simp only [Option.isSome_none, Bool.false_eq_true, if_false]
    split
    · exact Or.inl rfl
    · split
      · exact Or.inl rfl
      · split
        · exact Or.inl rfl
        · rename_i hpair
          split
          · exact Or.inl rfl
          · exact Or.inr ⟨h2, hpair, rfl⟩
  · rw [hdup]
    simp

/-- `recordSwipe` preserves the per-ordered-pair uniqueness of swipes. -/
theorem recordSwipe_preserves_swipeUnique (db : SwipeDB) (u t : Nat) (d : String)
    (hinv : swipePairUnique db) : swipePairUnique (recordSwipe db u t d).1 := by
  rcases recordSwipe_swipes_shape db u t d with h | ⟨hfind, h⟩
  · unfold swipePairUnique at *
    rw [h]; exact hinv
  · unfold swipePairUnique at *
    rw [h]
    apply pairwise_append_singleton hinv
    intro x hx hcontra
    have hnp := List.find?_eq_none.mp hfind x hx
    simp only [hcontra.1, hcontra.2, beq_self_eq_true, Bool.and_self] at hnp
    exact hnp trivial

/-- `recordSwipe` preserves canonical ordering and the per-pair uniqueness
of matches. -/
theorem recordSwipe_preserves_matchUnique (db : SwipeDB) (u t : Nat) (d : String)
    (hinv : matchPairUnique db) : matchPairUnique (recordSwipe db u t d).1 := by
  rcases recordSwipe_matchRows_shape db u t d with h | ⟨hne, hfind, h⟩
  · unfold matchPairUnique at *
    rw [h]; exact hinv
  · unfold matchPairUnique at *
    rw [h]
    constructor
    · intro m hm
      rcases List.mem_append.mp hm with hm | hm
      · exact hinv.1 m hm
      · simp only [List.mem_singleton] at hm
        subst hm
        exact min_lt_max.mpr fun hh => hne hh.symm
    · apply pairwise_append_singleton hinv.2
      intro x hx hcontra
      have hnp := List.find?_eq_none.mp hfind x hx
      simp only [hcontra.1, hcontra.2, beq_self_eq_true, Bool.and_self] at hnp
      exact hnp trivial

/-! ## Claim theorems -/

theorem contains_ne_false_of_mem {α : Type} [BEq α] [LawfulBEq α] {l : List α} {a : α}
    (h : a ∈ l) : l.contains a ≠ false := by
  have he := List.elem_eq_true_of_mem h
  intro hcon
  rw [show l.contains a = List.elem a l from rfl, he] at hcon
  cases hcon

/-- A user involved in a report with the viewer (in either direction)
never appears in the viewer's candidate list. -/
theorem blocked_not_in_profiles (db : ReportDB) (viewer other : Nat)
    (hrep : ∃ rep ∈ db.reports,
      (rep.reporterId = viewer ∧ rep.reportedId = other) ∨
      (rep.reporterId = other ∧ rep.reportedId = viewer)) :
    other ∉ getSwipeProfiles db viewer := by
  intro hmem
  simp only [getSwipeProfiles] at hmem
  obtain ⟨rep, hrepmem, hcase⟩ := hrep
  have hmem1 := List.mem_of_mem_take hmem
  have hmem2 := (List.mem_filter.mp hmem1).2
  have hviewer : viewer ∈ (viewer :: ((db.swipes.filter fun s => s.swiperId == viewer).map Swipe.swipedId ++
      (db.reports.filter fun r => r.reporterId == viewer || r.reportedId == viewer).map
        fun r => if r.reporterId = viewer then r.reportedId else r.reporterId)).dedup :=
    List.mem_dedup.mpr (List.mem_cons_self _ _)
  have hlen := List.length_pos_of_mem hviewer
  rw [if_pos hlen] at hmem2
  simp only [Bool.not_eq_true'] at hmem2
  have hin : other ∈ (viewer :: ((db.swipes.filter fun s => s.swiperId == viewer).map Swipe.swipedId ++
      (db.reports.filter fun r => r.reporterId == viewer || r.reportedId == viewer).map
        fun r => if r.reporterId = viewer then r.reportedId else r.reporterId)).dedup := by
    rw [List.mem_dedup]
    by_cases hov : other = viewer
    · exact hov ▸ List.mem_cons_self _ _
    · refine List.mem_cons_of_mem _ (List.mem_append_right _ ?_)
      rcases hcase with ⟨h1, h2⟩ | ⟨h1, h2⟩
      · exact List.mem_map.mpr ⟨rep, List.mem_filter.mpr ⟨hrepmem, by simp [h1]⟩, by simp [h1, h2]⟩
      · refine List.mem_map.mpr ⟨rep, List.mem_filter.mpr ⟨hrepmem, by simp [h2]⟩, ?_⟩
        rw [if_neg (by rw [h1]; exact fun hh => hov hh)]
        exact h1
  exact contains_ne_false_of_mem hin hmem2

/-- The fully reduced form of a valid `submitReport` call by `a` against
`b` (given directly by `reportedUserId`). -/
theorem submitReport_reduce (db : ReportDB) (a b : Nat) (category reason : String)
    (ha : ¬a = 0) (hb : ¬b = 0) (hc : ¬category = "") (hr : ¬reason = "")
    (ht : ¬jsTrim reason = "") :
    submitReport db a (some b) none category reason =
      ({ users := db.users,
         swipes := db.swipes.filter fun s =>
           !((s.swiperId == a && s.swipedId == b) || (s.swiperId == b && s.swipedId == a)),
         matchRows := db.matchRows.filter fun m =>
           !((m.user1Id == a && m.user2Id == b) || (m.user1Id == b && m.user2Id == a)),
         reports :=
           if (db.reports.find? fun r => r.reporterId == a && r.reportedId == b).isSome
           then db.reports
           else db.reports ++ [⟨a, b, category, reason, "pending"⟩] },
       .reported) := by
  unfold submitReport resolveTargetId
  simp only [jsTruthyNat]
  rw [if_neg ha]
  rw [if_neg (by simp [hb, hc, hr])]
  rw [if_neg ht]
  simp only [Bool.false_eq_true, if_false, Option.getD_some]
  rw [if_neg (by simp [hb])]
  split <;> rfl

/-- C1: in STAGE_2 the advance condition is a count of distinct answer
keys (`Object.keys(answers).length >= 2`), not one answer per distinct
participant.  With the final this-or-that round open, user 1 alone submits
two answers under two different questionIds while user 2 submits nothing:
after the first submission nothing advances (every recorded answer is user
1's), and the second submission — with the evaluated answers map still
containing only user 1's answers — advances `currentStage` from STAGE_2 to
STAGE_3 and clears `stageData.answers`, contradicting the claim that
answers from only one participant never advance the stage or clear the
stage data. -/
theorem stage2_advances_on_one_participant :
    stage2AfterOne.session.currentStage = "STAGE_2" ∧
    (getStageData stage2AfterOne.session.stageData).answers.length = 1 ∧
    ((getStageData stage2AfterOne.session.stageData).answers.all
      fun kv => kv.2.userId == 1) = true ∧
    ((upsertAnswer (getStageData stage2AfterOne.session.stageData).answers "qB"
        ⟨1, "Books"⟩).all fun kv => kv.2.userId == 1) = true ∧
    stage2AfterTwo.session.currentStage = "STAGE_3" ∧
    (getStageData stage2AfterTwo.session.stageData).answers = [] :=
  ⟨by decide, by decide, by decide, by decide, by decide, by decide⟩

/-- C9: for every host session whose status is not `active`,
`submitHostAnswer` fails with the session-not-active error and changes
nothing: the session row with its stageData is unchanged and no
`ChatHostMessage` is appended (the whole step is the identity). -/
theorem submitHostAnswer_not_active (st : HostState) (b : Bool) (u1 u2 : Nat)
    (a : String) (q : Option String) (k : String) (p1 p2 : Nat)
    (hs : st.session.status ≠ "active") (ha : a ≠ "") :
    submitHostAnswer st b u1 u2 a q k p1 p2 = .error "Host session not active." ∧
    hostStep u1 u2 st (.submit b a q k p1 p2) = st := by
  have h1 : submitHostAnswer st b u1 u2 a q k p1 p2 = .error "Host session not active." := by
    unfold submitHostAnswer
    rw [if_neg ha, if_pos hs]
  exact ⟨h1, by simp [hostStep, h1]⟩

theorem submitHostAnswer_not_active_witness :
    (initialHostState 1).session.status ≠ "active" ∧
    submitHostAnswer (initialHostState 1) true 1 2 "hello" none "k" 0 0 =
      .error "Host session not active." :=
  ⟨by decide,
   (submitHostAnswer_not_active (initialHostState 1) true 1 2 "hello" none "k" 0 0
     (by decide) (by decide)).1⟩

/-- C10: whenever a host session exists for the match, `optOutOfHost` sets
its status to `declined` and clears only the calling user's opt-in flag —
whatever the session's current status, including `active`, `completed` and
`exited` (`s.status` is arbitrary here and every other field is preserved
by the record update) — and when no session exists it succeeds without
creating one. -/
theorem optOutOfHost_declines (s : HostSession) (b : Bool) :
    optOutOfHost (some s) b =
      some { s with
        status := "declined",
        user1OptIn := if b then false else s.user1OptIn,
        user2OptIn := if b then s.user2OptIn else false } ∧
    optOutOfHost none b = none := by
  cases b <;> exact ⟨rfl, rfl⟩

/-- C8: opting in to an `exited` host session resets the same session row:
status `pending`, stage STAGE_0, stageData cleared, both opt-in flags
cleared and only the re-opting user's own flag set to true; the session id
is preserved (no new row), no start fires and no message is emitted. -/
theorem optInToHost_exited_resets (st : HostState) (b : Bool) (pick : Nat)
    (h : st.session.status = "exited") :
    (optInToHost st b pick).fired = false ∧
    (optInToHost st b pick).state.session.id = st.session.id ∧
    (optInToHost st b pick).state.session.status = "pending" ∧
    (optInToHost st b pick).state.session.currentStage = "STAGE_0" ∧
    (optInToHost st b pick).state.session.stageData = none ∧
    (optInToHost st b pick).state.session.user1OptIn = b ∧
    (optInToHost st b pick).state.session.user2OptIn = !b ∧
    (optInToHost st b pick).state.messages = st.messages := by
  cases b <;> simp [optInToHost, h]

/-- C7: `recordSwipe` rejects with an error and creates no Swipe row both
when the swiper equals the target and when a Swipe for the ordered pair
already exists; and it preserves at-most-one-Swipe-per-ordered-pair. -/
theorem recordSwipe_rejections (db : SwipeDB) (u t : Nat) (d : String) :
    (u ≠ 0 → t = u → (d = "like" ∨ d = "pass") → recordSwipe db u t d = (db, .selfSwipe)) ∧
    (u ≠ 0 → t ≠ 0 → t ≠ u → (d = "like" ∨ d = "pass") →
      ((db.swipes.find? fun s => s.swiperId == u && s.swipedId == t)).isSome →
      recordSwipe db u t d = (db, .alreadySwiped)) ∧
    (swipePairUnique db → swipePairUnique (recordSwipe db u t d).1) := by
  refine ⟨?_, ?_, recordSwipe_preserves_swipeUnique db u t d⟩
  · intro hu heq hd
    subst heq
    unfold recordSwipe recordSwipeRaced
    rcases hd with rfl | rfl <;> simp [hu]
  · intro hu ht hne hd hdup
    unfold recordSwipe recordSwipeRaced
    rcases hd with rfl | rfl <;> simp [hu, ht, hne, hdup]

theorem recordSwipe_rejections_witness :
    ((1 : Nat) ≠ 0 ∧ (1 : Nat) = 1 ∧ ("like" = "like" ∨ "like" = "pass") ∧
      recordSwipe oneLikeDB 1 1 "like" = (oneLikeDB, .selfSwipe)) ∧
    ((2 : Nat) ≠ 0 ∧ (1 : Nat) ≠ 0 ∧ (1 : Nat) ≠ 2 ∧
      ((oneLikeDB.swipes.find? fun s => s.swiperId == 2 && s.swipedId == 1)).isSome ∧
      recordSwipe oneLikeDB 2 1 "like" = (oneLikeDB, .alreadySwiped)) ∧
    (swipePairUnique oneLikeDB → swipePairUnique (recordSwipe oneLikeDB 2 1 "like").1) :=
  ⟨⟨by decide, rfl, Or.inl rfl,
    (recordSwipe_rejections oneLikeDB 1 1 "like").1 (by decide) rfl (Or.inl rfl)⟩,
   ⟨by decide, by decide, by decide, by decide,
    (recordSwipe_rejections oneLikeDB 2 1 "like").2.1 (by decide) (by decide) (by decide)
      (Or.inl rfl) (by decide)⟩,
   (recordSwipe_rejections oneLikeDB 2 1 "like").2.2⟩

/-- C2: on a `like` with an existing reverse like, `recordSwipe` computes
the canonical pair (min, max), which is strictly ordered; if a Match for
that pair exists it returns it and creates nothing beyond the swipe row;
otherwise it creates exactly one Match with its chat room and returns it;
and the at-most-one-canonical-Match-per-pair invariant is preserved. -/
theorem recordSwipe_mutual_like (db : SwipeDB) (u t : Nat)
    (hu : u ≠ 0) (ht : t ≠ 0) (hne : t ≠ u)
    (hdup : (db.swipes.find? fun s => s.swiperId == u && s.swipedId == t) = none)
    (hmut : ((db.swipes.find? fun s =>
        s.swiperId == t && s.swipedId == u && s.direction == "like")).isSome) :
    min u t < max u t ∧
    (∀ m, (db.matchRows.find? fun m' => m'.user1Id == min u t && m'.user2Id == max u t) = some m →
      recordSwipe db u t "like" =
        ({ db with swipes := db.swipes ++ [⟨u, t, "like"⟩] },
         .matched m.id ((db.chatRooms.find? fun r => r.matchId == m.id).map ChatRoom.id))) ∧
    ((db.matchRows.find? fun m' => m'.user1Id == min u t && m'.user2Id == max u t) = none →
      recordSwipe db u t "like" =
        ({ db with
            swipes := db.swipes ++ [⟨u, t, "like"⟩],
            matchRows := db.matchRows ++ [⟨db.nextMatchId, min u t, max u t⟩],
            chatRooms := db.chatRooms ++ [⟨db.nextRoomId, db.nextMatchId⟩],
            nextMatchId := db.nextMatchId + 1,
            nextRoomId := db.nextRoomId + 1 },
         .matched db.nextMatchId (some db.nextRoomId))) ∧
    (matchPairUnique db → matchPairUnique (recordSwipe db u t "like").1) := by
  have hut : u ≠ t := Ne.symm hne
  have hnew : ((⟨u, t, "like"⟩ : Swipe).swiperId == t && (⟨u, t, "like"⟩ : Swipe).swipedId == u &&
      (⟨u, t, "like"⟩ : Swipe).direction == "like") = false := by
    have : (u == t) = false := by
      simp [hut]
    simp [this]
  have hmut1 : ((db.swipes ++ [⟨u, t, "like"⟩] : List Swipe).find? fun s =>
      s.swiperId == t && s.swipedId == u && s.direction == "like") =
      (db.swipes.find? fun s => s.swiperId == t && s.swipedId == u && s.direction == "like") :=
    find?_append_singleton_of_neg _ _ _ hnew
  obtain ⟨sw, hsw⟩ := Option.isSome_iff_exists.mp hmut
  refine ⟨min_lt_max.mpr hut, ?_, ?_, recordSwipe_preserves_matchUnique db u t "like"⟩
  · intro m hm
    unfold recordSwipe recordSwipeRaced
    rw [if_neg hu, if_neg (by simp [ht]), if_neg hne]
    rw [hdup]
    simp only [Option.isSome_none, Bool.false_eq_true, if_false]
    simp only [if_neg (by decide : ¬("like" : String) = "pass")]
    rw [hmut1, hsw]
    simp only [hm]
  · intro hnone
    unfold recordSwipe recordSwipeRaced
    rw [if_neg hu, if_neg (by simp [ht]), if_neg hne]
    rw [hdup]
    simp only [Option.isSome_none, Bool.false_eq_true, if_false]
    simp only [if_neg (by decide : ¬("like" : String) = "pass")]
    rw [hmut1, hsw]
    simp only [hnone]
    rw [if_neg (by simp [any_eq_false_of_find?_eq_none hnone])]
    rfl

theorem recordSwipe_mutual_like_witness :
    ((mutualReadyDB.swipes.find? fun s => s.swiperId == 1 && s.swipedId == 2) = none ∧
     ((mutualReadyDB.swipes.find? fun s =>
        s.swiperId == 2 && s.swipedId == 1 && s.direction == "like")).isSome ∧
     (mutualReadyDB.matchRows.find? fun m' =>
        m'.user1Id == min 1 2 && m'.user2Id == max 1 2) = none) ∧
    min 1 2 < max 1 2 ∧
    recordSwipe mutualReadyDB 1 2 "like" =
      ({ mutualReadyDB with
          swipes := mutualReadyDB.swipes ++ [⟨1, 2, "like"⟩],
          matchRows := mutualReadyDB.matchRows ++ [⟨7, min 1 2, max 1 2⟩],
          chatRooms := mutualReadyDB.chatRooms ++ [⟨3, 7⟩],
          nextMatchId := 8,
          nextRoomId := 4 },
       .matched 7 (some 3)) :=
  ⟨⟨by decide, by decide, by decide⟩,
   (recordSwipe_mutual_like mutualReadyDB 1 2 (by decide) (by decide) (by decide)
      (by decide) (by decide)).1,
   (recordSwipe_mutual_like mutualReadyDB 1 2 (by decide) (by decide) (by decide)
      (by decide) (by decide)).2.2.1 (by decide)⟩

/-- C6 counterexample: users 1 and 2 are mutually liked and match 7 exists;
a further duplicate like by user 1 is rejected as a duplicate swipe with an
error response — it is not a success returning the match id 7, as the
claim states. -/
theorem duplicate_like_returns_error_not_match :
    recordSwipe matchedDB 1 2 "like" = (matchedDB, .alreadySwiped) ∧
    SwipeResponse.alreadySwiped ≠ SwipeResponse.matched 7 (some 3) :=
  ⟨by decide, by decide⟩

/-- C6 (amended): after users A and B are mutually liked and a Match
between them exists, a further duplicate like by either user is rejected
with the duplicate-swipe error and is a no-op on the database — no second
Swipe or Match row is created, and no match id is returned. -/
theorem duplicate_like_is_rejected_noop (db : SwipeDB) (a b : Nat)
    (ha : a ≠ 0) (hb : b ≠ 0) (hne : a ≠ b)
    (hab : ((db.swipes.find? fun s => s.swiperId == a && s.swipedId == b)).isSome)
    (hba : ((db.swipes.find? fun s => s.swiperId == b && s.swipedId == a)).isSome)
    (hmatch : ((db.matchRows.find? fun m =>
        m.user1Id == min a b && m.user2Id == max a b)).isSome) :
    recordSwipe db a b "like" = (db, .alreadySwiped) ∧
    recordSwipe db b a "like" = (db, .alreadySwiped) := by
  have hne' : b ≠ a := Ne.symm hne
  constructor
  · unfold recordSwipe recordSwipeRaced
    simp [ha, hb, hne', hab]
  · unfold recordSwipe recordSwipeRaced
    simp [ha, hb, hne, hba]

/-- C5: when the Match insert hits the unique constraint because a
concurrent request created the canonical-pair match (id 5, room 9) between
the existence check and the insert, `recordSwipe` does not fetch and
return the existing match as a success: the thrown constraint violation
reaches only the controller's generic catch, which returns the 500
failure response. -/
theorem uniqueViolation_yields_serverError :
    (recordSwipeRaced raceDB raceInsert 1 2 "like").2 = SwipeResponse.serverError ∧
    (recordSwipeRaced raceDB raceInsert 1 2 "like").2 ≠ SwipeResponse.matched 5 (some 9) :=
  ⟨by decide, by decide⟩

theorem duplicate_like_is_rejected_noop_witness :
    ((1 : Nat) ≠ 0 ∧ (2 : Nat) ≠ 0 ∧ (1 : Nat) ≠ 2 ∧
     ((matchedDB.swipes.find? fun s => s.swiperId == 1 && s.swipedId == 2)).isSome ∧
     ((matchedDB.swipes.find? fun s => s.swiperId == 2 && s.swipedId == 1)).isSome ∧
     ((matchedDB.matchRows.find? fun m =>
        m.user1Id == min 1 2 && m.user2Id == max 1 2)).isSome) ∧
    recordSwipe matchedDB 1 2 "like" = (matchedDB, .alreadySwiped) ∧
    recordSwipe matchedDB 2 1 "like" = (matchedDB, .alreadySwiped) :=
  ⟨⟨by decide, by decide, by decide, by decide, by decide, by decide⟩,
   duplicate_like_is_rejected_noop matchedDB 1 2 (by decide) (by decide) (by decide)
     (by decide) (by decide) (by decide)⟩

/-- C3: after `submitReport` by user A against user B (valid category and
reason) completes, no Match row and no Swipe row between A and B (in
either direction) remains, B no longer appears in A's candidate list nor A
in B's; and when an identical report by A against B already exists, no new
Report row is inserted while the same cleanup still happens. -/
theorem submitReport_cleanup (db : ReportDB) (a b : Nat) (category reason : String)
    (ha : a ≠ 0) (hb : b ≠ 0) (hc : category ≠ "") (hr : reason ≠ "")
    (ht : jsTrim reason ≠ "") :
    (submitReport db a (some b) none category reason).2 = .reported ∧
    (∀ m ∈ (submitReport db a (some b) none category reason).1.matchRows,
      ¬((m.user1Id = a ∧ m.user2Id = b) ∨ (m.user1Id = b ∧ m.user2Id = a))) ∧
    (∀ s ∈ (submitReport db a (some b) none category reason).1.swipes,
      ¬((s.swiperId = a ∧ s.swipedId = b) ∨ (s.swiperId = b ∧ s.swipedId = a))) ∧
    b ∉ getSwipeProfiles (submitReport db a (some b) none category reason).1 a ∧
    a ∉ getSwipeProfiles (submitReport db a (some b) none category reason).1 b ∧
    ((∃ rep ∈ db.reports, rep.reporterId = a ∧ rep.reportedId = b) →
      (submitReport db a (some b) none category reason).1.reports = db.reports) := by
  have hred := submitReport_reduce db a b category reason ha hb hc hr ht
  rw [hred]
  have hrepex : ∃ rep ∈ (if ((db.reports.find? fun r =>
        r.reporterId == a && r.reportedId == b)).isSome
        then db.reports else db.reports ++ [⟨a, b, category, reason, "pending"⟩]),
      rep.reporterId = a ∧ rep.reportedId = b := by
    by_cases hex : ((db.reports.find? fun r => r.reporterId == a && r.reportedId == b)).isSome = true
    · rw [if_pos hex]
      obtain ⟨rep, hmem, hp⟩ := List.find?_isSome.mp hex
      simp only [Bool.and_eq_true, beq_iff_eq] at hp
      exact ⟨rep, hmem, hp.1, hp.2⟩
    · rw [if_neg hex]
      exact ⟨⟨a, b, category, reason, "pending"⟩,
        List.mem_append_right _ (List.mem_singleton_self _), rfl, rfl⟩
  obtain ⟨rep, hrepmem, hrep1, hrep2⟩ := hrepex
  refine ⟨rfl, ?_, ?_, ?_, ?_, ?_⟩
  · intro m hm
    have h2 := (List.mem_filter.mp hm).2
    rintro (⟨e1, e2⟩ | ⟨e1, e2⟩) <;> simp [e1, e2] at h2
  · intro s hs
    have h2 := (List.mem_filter.mp hs).2
    rintro (⟨e1, e2⟩ | ⟨e1, e2⟩) <;> simp [e1, e2] at h2
  · exact blocked_not_in_profiles _ a b ⟨rep, hrepmem, Or.inl ⟨hrep1, hrep2⟩⟩
  · exact blocked_not_in_profiles _ b a ⟨rep, hrepmem, Or.inr ⟨hrep1, hrep2⟩⟩
  · rintro ⟨rep0, hmem0, h01, h02⟩
    have hex : ((db.reports.find? fun r => r.reporterId == a && r.reportedId == b)).isSome = true :=
      List.find?_isSome.mpr ⟨rep0, hmem0, by simp [h01, h02]⟩
    rw [if_pos hex]

theorem submitReport_cleanup_witness :
    ((1 : Nat) ≠ 0 ∧ (2 : Nat) ≠ 0 ∧ ("spam" : String) ≠ "" ∧
     ("bad" : String) ≠ "" ∧ jsTrim "bad" ≠ "") ∧
    ((submitReport reportWitnessDB 1 (some 2) none "spam" "bad").2 = .reported ∧
     (∀ m ∈ (submitReport reportWitnessDB 1 (some 2) none "spam" "bad").1.matchRows,
       ¬((m.user1Id = 1 ∧ m.user2Id = 2) ∨ (m.user1Id = 2 ∧ m.user2Id = 1))) ∧
     (∀ s ∈ (submitReport reportWitnessDB 1 (some 2) none "spam" "bad").1.swipes,
       ¬((s.swiperId = 1 ∧ s.swipedId = 2) ∨ (s.swiperId = 2 ∧ s.swipedId = 1))) ∧
     2 ∉ getSwipeProfiles (submitReport reportWitnessDB 1 (some 2) none "spam" "bad").1 1 ∧
     1 ∉ getSwipeProfiles (submitReport reportWitnessDB 1 (some 2) none "spam" "bad").1 2 ∧
     ((∃ rep ∈ reportWitnessDB.reports, rep.reporterId = 1 ∧ rep.reportedId = 2) →
       (submitReport reportWitnessDB 1 (some 2) none "spam" "bad").1.reports =
         reportWitnessDB.reports)) :=
  ⟨⟨by decide, by decide, by decide, by decide, by decide⟩,
   submitReport_cleanup reportWitnessDB 1 2 "spam" "bad"
     (by decide) (by decide) (by decide) (by decide) (by decide)⟩

theorem optInToHost_exited_resets_witness :
    exitedState.session.status = "exited" ∧
    ((optInToHost exitedState false 0).fired = false ∧
     (optInToHost exitedState false 0).state.session.id = exitedState.session.id ∧
     (optInToHost exitedState false 0).state.session.status = "pending" ∧
     (optInToHost exitedState false 0).state.session.currentStage = "STAGE_0" ∧
     (optInToHost exitedState false 0).state.session.stageData = none ∧
     (optInToHost exitedState false 0).state.session.user1OptIn = false ∧
     (optInToHost exitedState false 0).state.session.user2OptIn = !false ∧
     (optInToHost exitedState false 0).state.messages = exitedState.messages) :=
  ⟨rfl, optInToHost_exited_resets exitedState false 0 rfl⟩

theorem hostInv_init (sid : Nat) : hostInv (initialHostState sid) := by
  constructor <;> simp [initialHostState]

theorem submitHostAnswer_ok_fields (st : HostState) (b : Bool) (u1 u2 : Nat) (a : String)
    (q : Option String) (k : String) (p1 p2 : Nat) (st' : HostState)
    (hok : submitHostAnswer st b u1 u2 a q k p1 p2 = .ok st') :
    st'.session.status = st.session.status ∧
    st'.session.user1OptIn = st.session.user1OptIn ∧
    st'.session.user2OptIn = st.session.user2OptIn ∧
    st'.session.id = st.session.id := by
  unfold submitHostAnswer at hok
  by_cases hae : a = ""
  · rw [if_pos hae] at hok; cases hok
  rw [if_neg hae] at hok
  by_cases hs : st.session.status ≠ "active"
  · rw [if_pos hs] at hok; cases hok
  rw [if_neg hs] at hok
  dsimp only at hok
  cases hok
  exact ⟨(processNextHostStep_fields _ u1 u2 p2).1,
    (processNextHostStep_fields _ u1 u2 p2).2.1,
    (processNextHostStep_fields _ u1 u2 p2).2.2.1,
    (processNextHostStep_fields _ u1 u2 p2).2.2.2⟩

theorem hostStep_preserves_hostInv (u1 u2 : Nat) (st : HostState) (op : HostOp)
    (h : hostInv st) : hostInv (hostStep u1 u2 st op) := by
  cases op with
  | optIn b pick =>
    show hostInv (optInToHost st b pick).state
    unfold optInToHost
    dsimp only
    by_cases hex : st.session.status = "exited"
    · rw [if_pos hex]
      cases b <;> simp [hostInv, startHostSession, appendHostMsg]
    · rw [if_neg hex]
      cases b
      · rw [if_neg (show ¬((false : Bool) = true) by decide)]
        by_cases hcond : ({ st.session with user2OptIn := true }.user1OptIn = true ∧
            { st.session with user2OptIn := true }.user2OptIn = true ∧
            { st.session with user2OptIn := true }.status = "pending")
        · rw [if_pos hcond]
          refine ⟨fun _ => ⟨hcond.1, hcond.2.1⟩, ?_⟩
          rintro ⟨hp, _⟩
          exact absurd (show ("active" : String) = "pending" from hp) (by decide)
        · rw [if_neg hcond]
          obtain ⟨h1, h2⟩ := h
          refine ⟨fun ha => ⟨(h1 ha).1, rfl⟩, ?_⟩
          rintro ⟨hp, hu1, _⟩
          exact hcond ⟨hu1, rfl, hp⟩
      · rw [if_pos (show (true : Bool) = true from rfl)]
        by_cases hcond : ({ st.session with user1OptIn := true }.user1OptIn = true ∧
            { st.session with user1OptIn := true }.user2OptIn = true ∧
            { st.session with user1OptIn := true }.status = "pending")
        · rw [if_pos hcond]
          refine ⟨fun _ => ⟨hcond.1, hcond.2.1⟩, ?_⟩
          rintro ⟨hp, _⟩
          exact absurd (show ("active" : String) = "pending" from hp) (by decide)
        · rw [if_neg hcond]
          obtain ⟨h1, h2⟩ := h
          refine ⟨fun ha => ⟨rfl, (h1 ha).2⟩, ?_⟩
          rintro ⟨hp, _, hu2⟩
          exact hcond ⟨rfl, hu2, hp⟩
  | optOut b =>
    simp only [hostStep]
    cases b <;> simp [optOutOfHost, hostInv]
  | submit b a q k pr ps =>
    simp only [hostStep]
    rcases hres : submitHostAnswer st b u1 u2 a q k pr ps with e | st'
    · exact h
    · obtain ⟨hf1, hf2, hf3, hf4⟩ := submitHostAnswer_ok_fields st b u1 u2 a q k pr ps st' hres
      unfold hostInv at h ⊢
      rw [hf1, hf2, hf3]
      exact h
  | exitSession pick =>
    simp only [hostStep]
    rcases hres : exitHost st pick with e | st'
    · exact h
    · unfold exitHost at hres
      by_cases hs : st.session.status ≠ "active"
      · rw [if_pos hs] at hres; cases hres
      · rw [if_neg hs] at hres
        dsimp only at hres
        cases hres
        simp [hostInv, appendHostMsg]
  | stage4dTimer pick =>
    simp only [hostStep]
    simp [moveToHandoff, hostInv, appendHostMsg]

theorem hostInv_reachable (u1 u2 : Nat) (st : HostState)
    (h : HostReachable u1 u2 st) : hostInv st := by
  induction h with
  | init sid => exact hostInv_init sid
  | step st op hst ih => exact hostStep_preserves_hostInv u1 u2 st op ih

/-- `optInToHost` fires `startHostSession` exactly when the session is
pending and the other participant's flag is already set. -/
theorem optInToHost_fired_iff (st : HostState) (b : Bool) (pick : Nat) :
    (optInToHost st b pick).fired = true ↔
      (st.session.status = "pending" ∧
       (if b then st.session.user2OptIn else st.session.user1OptIn) = true) := by
  unfold optInToHost
  dsimp only
  by_cases hex : st.session.status = "exited"
  · rw [if_pos hex]
    cases b <;> simp [hex]
  · rw [if_neg hex]
    cases b
    · rw [if_neg (show ¬((false : Bool) = true) by decide)]
      by_cases hcond : ({ st.session with user2OptIn := true }.user1OptIn = true ∧
          { st.session with user2OptIn := true }.user2OptIn = true ∧
          { st.session with user2OptIn := true }.status = "pending")
      · rw [if_pos hcond]
        exact iff_of_true rfl ⟨hcond.2.2, hcond.1⟩
      · rw [if_neg hcond]
        exact iff_of_false (fun hf => Bool.noConfusion (show (false : Bool) = true from hf))
          (fun hand => hcond ⟨hand.2, rfl, hand.1⟩)
    · rw [if_pos (show (true : Bool) = true from rfl)]
      by_cases hcond : ({ st.session with user1OptIn := true }.user1OptIn = true ∧
          { st.session with user1OptIn := true }.user2OptIn = true ∧
          { st.session with user1OptIn := true }.status = "pending")
      · rw [if_pos hcond]
        exact iff_of_true rfl ⟨hcond.2.2, hcond.2.1⟩
      · rw [if_neg hcond]
        exact iff_of_false (fun hf => Bool.noConfusion (show (false : Bool) = true from hf))
          (fun hand => hcond ⟨rfl, hand.2, hand.1⟩)

/-- When `optInToHost` fires, the resulting state is exactly
`startHostSession` applied to the session with the caller's flag set. -/
theorem optInToHost_fired_state (st : HostState) (b : Bool) (pick : Nat)
    (hf : (optInToHost st b pick).fired = true) :
    (optInToHost st b pick).state =
      startHostSession { st with session :=
        (if b then { st.session with user1OptIn := true }
         else { st.session with user2OptIn := true }) } pick := by
  have hiff := (optInToHost_fired_iff st b pick).mp hf
  unfold optInToHost at hf ⊢
  dsimp only at hf ⊢
  by_cases hex : st.session.status = "exited"
  · rw [hex] at hiff
    exact absurd hiff.1 (by decide)
  · rw [if_neg hex] at hf ⊢
    cases b
    · rw [if_neg (show ¬((false : Bool) = true) by decide)] at hf ⊢
      by_cases hcond : ({ st.session with user2OptIn := true }.user1OptIn = true ∧
          { st.session with user2OptIn := true }.user2OptIn = true ∧
          { st.session with user2OptIn := true }.status = "pending")
      · rw [if_pos hcond]
      · rw [if_neg hcond] at hf
        exact Bool.noConfusion (show (false : Bool) = true from hf)
    · rw [if_pos (show (true : Bool) = true from rfl)] at hf ⊢
      by_cases hcond : ({ st.session with user1OptIn := true }.user1OptIn = true ∧
          { st.session with user1OptIn := true }.user2OptIn = true ∧
          { st.session with user1OptIn := true }.status = "pending")
      · rw [if_pos hcond]
      · rw [if_neg hcond] at hf
        exact Bool.noConfusion (show (false : Bool) = true from hf)

/-- C4: a host session transitions pending→active exactly when the second
participant's opt-in flag becomes true while the status is still pending.
`optInToHost` fires `startHostSession` iff the session is pending and the
other participant's flag is already set; on any reachable state the
caller's own flag was still false (so the flag that becomes true really is
the second one).  When it fires, the session becomes active at STAGE_1
with both flags set and exactly one STAGE_1 question prompt appended, and
any immediately following opt-in can never fire again — the session has
left pending, and re-entering pending (the exited reset) clears both flags
— so a pending period starts at most once.  Finally, no reachable state is
active with fewer than two true opt-in flags. -/
theorem optIn_pending_to_active (u1 u2 : Nat) (st : HostState) (b : Bool) (pick : Nat)
    (hr : HostReachable u1 u2 st) :
    ((optInToHost st b pick).fired = true ↔
      (st.session.status = "pending" ∧
       (if b then st.session.user2OptIn else st.session.user1OptIn) = true)) ∧
    ((optInToHost st b pick).fired = true →
      (if b then st.session.user1OptIn else st.session.user2OptIn) = false ∧
      (optInToHost st b pick).state.session.status = "active" ∧
      (optInToHost st b pick).state.session.currentStage = "STAGE_1" ∧
      (optInToHost st b pick).state.session.user1OptIn = true ∧
      (optInToHost st b pick).state.session.user2OptIn = true ∧
      (optInToHost st b pick).state.messages = st.messages ++ [stage1Prompt pick] ∧
      (stage1Prompt pick).messageType = "question" ∧
      (stage1Prompt pick).metaStage = some "STAGE_1" ∧
      (∀ b' pick', (optInToHost (optInToHost st b pick).state b' pick').fired = false)) ∧
    (st.session.status = "active" →
      st.session.user1OptIn = true ∧ st.session.user2OptIn = true) := by
  have hinv := hostInv_reachable u1 u2 st hr
  refine ⟨optInToHost_fired_iff st b pick, ?_, hinv.1⟩
  intro hf
  obtain ⟨hpend, hother⟩ := (optInToHost_fired_iff st b pick).mp hf
  have hstate := optInToHost_fired_state st b pick hf
  have hself : (if b then st.session.user1OptIn else st.session.user2OptIn) = false := by
    cases b
    · by_cases hflag : st.session.user2OptIn = true
      · exact absurd ⟨hpend, (show st.session.user1OptIn = true from hother), hflag⟩ hinv.2
      · exact Bool.eq_false_iff.mpr hflag
    · by_cases hflag : st.session.user1OptIn = true
      · exact absurd ⟨hpend, hflag, (show st.session.user2OptIn = true from hother)⟩ hinv.2
      · exact Bool.eq_false_iff.mpr hflag
  refine ⟨hself, ?_, ?_, ?_, ?_, ?_, rfl, rfl, ?_⟩
  · rw [hstate]; cases b <;> rfl
  · rw [hstate]; cases b <;> rfl
  · rw [hstate]
    cases b
    · exact hother
    · rfl
  · rw [hstate]
    cases b
    · rfl
    · exact hother
  · rw [hstate]; cases b <;> rfl
  · intro b2 pick2
    cases hfb : (optInToHost (optInToHost st b pick).state b2 pick2).fired
    · rfl
    · have h2 := (optInToHost_fired_iff _ b2 pick2).mp hfb
      rw [hstate] at h2
      have hap : ("active" : String) = "pending" := by
        cases b <;> exact h2.1
      exact absurd hap (by decide)


theorem optIn_pending_to_active_witness :
    (optInToHost c4State1 false 5).fired = true ∧
    (((optInToHost c4State1 false 5).fired = true ↔
      (c4State1.session.status = "pending" ∧
       (if false then c4State1.session.user2OptIn else c4State1.session.user1OptIn) = true)) ∧
     ((optInToHost c4State1 false 5).fired = true →
       (if false then c4State1.session.user1OptIn else c4State1.session.user2OptIn) = false ∧
       (optInToHost c4State1 false 5).state.session.status = "active" ∧
       (optInToHost c4State1 false 5).state.session.currentStage = "STAGE_1" ∧
       (optInToHost c4State1 false 5).state.session.user1OptIn = true ∧
       (optInToHost c4State1 false 5).state.session.user2OptIn = true ∧
       (optInToHost c4State1 false 5).state.messages = c4State1.messages ++ [stage1Prompt 5] ∧
       (stage1Prompt 5).messageType = "question" ∧
       (stage1Prompt 5).metaStage = some "STAGE_1" ∧
       (∀ b2 pick2, (optInToHost (optInToHost c4State1 false 5).state b2 pick2).fired = false)) ∧
     (c4State1.session.status = "active" →
       c4State1.session.user1OptIn = true ∧ c4State1.session.user2OptIn = true)) :=
  ⟨by decide,
   optIn_pending_to_active 1 2 c4State1 false 5
     (HostReachable.step (initialHostState 21) (.optIn true 0) (HostReachable.init 21))⟩


end Metll
